import Mathlib

/-!
Verification development for the reddit-scout repository.

The Python sources are shallowly embedded: Python strings are modelled as
`List Char`, integers as `Nat`, database tables as Lean lists, and each
side-effecting call site (HTTP fetch, Discord send, clock) as an explicit
environment value passed to the embedded function.  Every definition mirrors
one Python function of the repository; doc comments name the source file.
-/

namespace PyStr

/-- ASCII model of Python `str.lower` on one character. -/
def lowerChar (c : Char) : Char :=
  if 'A' ≤ c ∧ c ≤ 'Z' then Char.ofNat (c.toNat + 32) else c

/-- Python `str.lower`, character by character (ASCII model). -/
def lower (s : List Char) : List Char := s.map lowerChar

/-- Python whitespace test used by `str.strip` (ASCII model). -/
def isSpace (c : Char) : Bool :=
  c == ' ' || c == '\t' || c == '\n' || c == '\r' || c == '\x0b' || c == '\x0c'

/-- Python `str.strip()`: drop whitespace from both ends. -/
def strip (s : List Char) : List Char :=
  ((s.dropWhile isSpace).reverse.dropWhile isSpace).reverse

/-- Python slice `s[a:b]`. -/
def slice (s : List Char) (a b : Nat) : List Char := (s.take b).drop a

/-- Python `s.find(c, start)`: least index `≥ start` holding `c`, if any. -/
def findFrom (s : List Char) (c : Char) (start : Nat) : Option Nat :=
  (List.range' start (s.length - start)).find? (fun i => s.get? i == some c)

/-- Python `s.rfind(c, lo, hi)`: greatest index in `[lo, hi)` holding `c`, if any. -/
def rfindRange (s : List Char) (c : Char) (lo hi : Nat) : Option Nat :=
  ((List.range' lo (hi - lo)).reverse).find? (fun i => s.get? i == some c)

/-- Regex word character `[A-Za-z0-9_]` (ASCII model of `\w`). -/
def isWordChar (c : Char) : Bool := c.isAlphanum || c == '_'

/-- Whether position `i` of `s` holds a word character (out of range counts as no). -/
def wordCharAt (s : List Char) (i : Nat) : Bool :=
  match s.get? i with
  | some c => isWordChar c
  | none => false

/-- Regex `\b` at position `i`: exactly one of the two surrounding positions
holds a word character. -/
def boundaryAt (s : List Char) (i : Nat) : Bool :=
  match i with
  | 0 => wordCharAt s 0
  | j + 1 => wordCharAt s j != wordCharAt s (j + 1)

/-- The literal pattern `pat` occurs in `s` starting at index `i`. -/
def matchesAt (pat s : List Char) (i : Nat) : Bool :=
  slice s i (i + pat.length) == pat

/-- Python `str.find` for a pattern: least index where `pat` occurs in `s`. -/
def findSub (s pat : List Char) : Option Nat :=
  (List.range (s.length + 1)).find? (fun i => matchesAt pat s i)

/-- `re.search` for the pattern `\b<re.escape(pat)>\b`: position of the
leftmost word-bounded occurrence of the literal `pat`. -/
def searchWordBounded (pat s : List Char) : Option Nat :=
  (List.range (s.length + 1)).find? (fun i =>
    matchesAt pat s i && boundaryAt s i && boundaryAt s (i + pat.length))

end PyStr

namespace RedditScout

/-- `reddit_scout/scanner/matcher.py` `MatchResult`. -/
structure MatchResult where
  keyword : List Char
  context_snippet : List Char
deriving DecidableEq

/-- The `start`/`end` bound computation of
`reddit_scout/scanner/matcher.py` `extract_context` (lines 28-43):
clip the window to `context_chars` on each side of the match, then move the
left edge forward past the first space before the match and the right edge
back to the last space after the match. -/
def contextBounds (text : List Char) (match_start match_stop context_chars : Nat) :
    Nat × Nat :=
  let start := match_start - context_chars
  let stop := min text.length (match_stop + context_chars)
  let start :=
    if 0 < start then
      match PyStr.findFrom text ' ' start with
      | some p => if p < match_start then p + 1 else start
      | none => start
    else start
  let stop :=
    if stop < text.length then
      match PyStr.rfindRange text ' ' match_stop stop with
      | some p => p
      | none => stop
    else stop
  (start, stop)

/-- `reddit_scout/scanner/matcher.py` `extract_context`. -/
def extract_context (text : List Char) (match_start match_stop context_chars : Nat) :
    List Char :=
  let b := contextBounds text match_start match_stop context_chars
  let snippet := PyStr.strip (PyStr.slice text b.1 b.2)
  let snippet := if 0 < b.1 then '.' :: '.' :: '.' :: snippet else snippet
  if b.2 < text.length then snippet ++ ['.', '.', '.'] else snippet

/-- The keyword loop of `reddit_scout/scanner/matcher.py` `match_keywords`
(lines 75-96); `text_lower` is the lowered copy of `text`. -/
def matchKeywordsGo (text text_lower : List Char) :
    List (List Char) → Option MatchResult
  | [] => none
  | kw :: rest =>
    let kw_lower := PyStr.strip (PyStr.lower kw)
    if kw_lower = [] then matchKeywordsGo text text_lower rest
    else if ' ' ∈ kw_lower then
      match PyStr.findSub text_lower kw_lower with
      | some pos => some ⟨kw, extract_context text pos (pos + kw_lower.length) 150⟩
      | none => matchKeywordsGo text text_lower rest
    else
      match PyStr.searchWordBounded kw_lower text_lower with
      | some pos => some ⟨kw, extract_context text pos (pos + kw_lower.length) 150⟩
      | none => matchKeywordsGo text text_lower rest

/-- `reddit_scout/scanner/matcher.py` `match_keywords`: first matching keyword
with its context snippet. -/
def match_keywords (text : List Char) (keywords : List (List Char)) :
    Option MatchResult :=
  if text = [] ∨ keywords = [] then none
  else matchKeywordsGo text (PyStr.lower text) keywords

/-- `reddit_scout/scanner/matcher.py` `match_post`: title first, then body. -/
def match_post (title body : List Char) (keywords : List (List Char)) :
    Option MatchResult :=
  match match_keywords title keywords with
  | some r => some r
  | none => match_keywords body keywords

/-- `reddit_scout/scanner/matcher.py` `match_comment`. -/
def match_comment (body : List Char) (keywords : List (List Char)) :
    Option MatchResult :=
  match_keywords body keywords

end RedditScout

namespace CommunityScout

/-- `community_scout/scanner/hn_scanner.py` `match_keywords`: all matching
keywords; the argument is `str | None` in Python, hence `Option`. -/
def match_keywords (text : Option (List Char)) (keywords : List (List Char)) :
    List (List Char) :=
  match text with
  | none => []
  | some t =>
    if t = [] then []
    else
      let text_lower := PyStr.lower t
      keywords.foldl (fun acc kw =>
        let kw_lower := PyStr.lower kw
        if ' ' ∈ kw then
          if (PyStr.findSub text_lower kw_lower).isSome then acc ++ [kw]
          else acc
        else
          if (PyStr.searchWordBounded kw_lower text_lower).isSome then acc ++ [kw]
          else acc) []

/-- `community_scout/hn/client.py` `HNItemData`. -/
structure HNItemData where
  id : Nat
  item_type : List Char
  title : Option (List Char)
  text : Option (List Char)
  url : Option (List Char)
  author : List Char
  score : Nat
  parent_id : Option Nat
deriving DecidableEq

/-- Python truthiness of an optional string field: contributes itself when
present and non-empty. -/
def optPart : Option (List Char) → List (List Char)
  | some t => if t = [] then [] else [t]
  | none => []

/-- `community_scout/scanner/hn_scanner.py` `get_searchable_text`:
`" ".join` of the truthy parts title, text, url. -/
def get_searchable_text (item : HNItemData) : List Char :=
  List.intercalate [' '] (optPart item.title ++ optPart item.text ++ optPart item.url)

end CommunityScout

/-- Specification predicate, written from the spec text (§4.1, §8), not from
the code: keyword `kw` occurs in `text` as a case-insensitive whole token,
bounded on both sides by a word boundary. -/
def OccursAsWholeToken (kw text : List Char) : Prop :=
  ∃ i, PyStr.slice (PyStr.lower text) i (i + (PyStr.lower kw).length) = PyStr.lower kw ∧
    PyStr.boundaryAt (PyStr.lower text) i = true ∧
    PyStr.boundaryAt (PyStr.lower text) (i + (PyStr.lower kw).length) = true

namespace CommunityScout

/-- `community_scout/models/content.py` `AlertStatus`. -/
inductive AlertStatus
  | pending
  | sent
  | dismissed
deriving DecidableEq

/-- `community_scout/models/content.py` `ScannerState` row
(`source_name` is fixed to `"hackernews"` throughout and omitted). -/
structure ScannerState where
  last_seen_id : Nat
  last_scan_at : Option Nat
deriving DecidableEq

/-- `community_scout/scanner/state.py` `get_scanner_state`: return the stored
row, creating it at position 0 when absent. -/
def get_scanner_state (stored : Option ScannerState) : ScannerState :=
  match stored with
  | some st => st
  | none => { last_seen_id := 0, last_scan_at := none }

/-- `community_scout/scanner/state.py` `update_scanner_state`: unconditional
assignment of the new position and scan time. -/
def update_scanner_state (st : ScannerState) (last_seen_id : Nat) (now : Nat) :
    ScannerState :=
  { st with last_seen_id := last_seen_id, last_scan_at := some now }

/-- `community_scout/models/content.py` `HNItem` row. -/
structure HNItem where
  id : Nat
  hn_id : Nat
  item_type : List Char
  title : Option (List Char)
  text : Option (List Char)
  url : Option (List Char)
  author : List Char
  score : Nat
  parent_id : Option Nat
deriving DecidableEq

/-- `community_scout/models/content.py` `UserAlert` row (scanner-side fields). -/
structure UserAlert where
  user_id : Nat
  item_id : Nat
  keyword_id : Nat
  source_id : Nat
  status : AlertStatus
deriving DecidableEq

/-- The database tables touched by `HNScanner`. -/
structure HNDB where
  items : List HNItem
  alerts : List UserAlert
deriving DecidableEq

/-- `community_scout/scanner/hn_scanner.py` `HNScanner.store_item`: return the
existing row for this `hn_id`, or insert a new one (the primary key is the
database's autoincrement, modelled as the next row number). -/
def store_item (db : HNDB) (item : HNItemData) : HNDB × HNItem :=
  match db.items.find? (fun it => it.hn_id == item.id) with
  | some existing => (db, existing)
  | none =>
    let row : HNItem :=
      { id := db.items.length + 1, hn_id := item.id, item_type := item.item_type,
        title := item.title, text := item.text, url := item.url,
        author := item.author, score := item.score, parent_id := item.parent_id }
    ({ db with items := db.items ++ [row] }, row)

/-- `community_scout/scanner/hn_scanner.py` `HNScanner.alert_exists`. -/
def alert_exists (db : HNDB) (user_id item_id keyword_id : Nat) : Bool :=
  db.alerts.any (fun a =>
    a.user_id == user_id && a.item_id == item_id && a.keyword_id == keyword_id)

/-- `community_scout/scanner/hn_scanner.py` `HNScanner.create_alert`:
check-then-insert; the Bool reports whether an alert was created. -/
def create_alert (db : HNDB) (user_id : Nat) (hn_item : HNItem)
    (keyword_id source_id : Nat) : HNDB × Bool :=
  if alert_exists db user_id hn_item.id keyword_id then (db, false)
  else
    ({ db with alerts := db.alerts ++
        [{ user_id := user_id, item_id := hn_item.id, keyword_id := keyword_id,
           source_id := source_id, status := AlertStatus.pending }] }, true)

/-- The active keywords, lower-cased phrase ↦ list of `(keyword_id, user_id)`,
as produced by `HNScanner.get_active_keywords`. -/
abbrev KeywordMap := List (List Char × List (Nat × Nat))

/-- `community_scout/scanner/hn_scanner.py` `HNScanner.process_item`: store the
item and create one alert per (matched keyword, subscriber); returns the new
database and the number of alerts created. -/
def process_item (db : HNDB) (item : HNItemData) (keyword_map : KeywordMap)
    (source_id : Nat) : HNDB × Nat :=
  let p := store_item db item
  let text := get_searchable_text item
  if text = [] then (p.1, 0)
  else
    let all_keywords := keyword_map.map (·.1)
    let matched := match_keywords (some text) all_keywords
    matched.foldl (fun acc mk =>
      let subscribers :=
        ((keyword_map.find? (fun q => q.1 == PyStr.lower mk)).map (·.2)).getD []
      subscribers.foldl (fun acc2 ku =>
        let c := create_alert acc2.1 ku.2 p.2 ku.1 source_id
        (c.1, if c.2 then acc2.2 + 1 else acc2.2)) acc) (p.1, 0)

/-- `community_scout/scanner/hn_scanner.py` `ScanResult`. -/
structure ScanResult where
  items_scanned : Nat
  items_stored : Nat
  alerts_created : Nat
  last_seen_id : Nat
deriving DecidableEq

/-- `community_scout/scanner/hn_scanner.py` `BATCH_SIZE`. -/
def BATCH_SIZE : Nat := 50

/-- `community_scout/scanner/hn_scanner.py` `HNScanner.scan` lines 276-280:
starting ID, from the cursor and the lookback. -/
def scanStartId (last_seen_id max_item_id initial_lookback : Nat) : Nat :=
  if last_seen_id = 0 then max 1 (max_item_id - initial_lookback)
  else last_seen_id + 1

/-- Accumulator of the batch loop of `HNScanner.scan`. -/
structure BatchLoopState where
  db : HNDB
  st : ScannerState
  scanned : Nat
  stored : Nat
  alerts : Nat
deriving DecidableEq

/-- The `while current_id <= max_item_id` batch loop of `HNScanner.scan`
(lines 318-336).  `fuel` bounds the number of iterations; every call passes
`max_item_id + 1 - current_id`, which suffices because each iteration
advances `current_id` by at least one. -/
def scanBatches (fetch : List Nat → List HNItemData) (keyword_map : KeywordMap)
    (source_id max_item_id now : Nat) :
    Nat → Nat → BatchLoopState → BatchLoopState
  | 0, _current_id, s => s
  | fuel + 1, current_id, s =>
    if current_id ≤ max_item_id then
      let batch_stop := min (current_id + BATCH_SIZE) (max_item_id + 1)
      let batch_ids := List.range' current_id (batch_stop - current_id)
      let items := fetch batch_ids
      let s1 := items.foldl (fun acc item =>
        let p := process_item acc.db item keyword_map source_id
        { acc with db := p.1, stored := acc.stored + 1, alerts := acc.alerts + p.2 }) s
      let s2 := { s1 with
        scanned := s1.scanned + batch_ids.length,
        st := update_scanner_state s1.st (batch_stop - 1) now }
      scanBatches fetch keyword_map source_id max_item_id now fuel batch_stop s2
    else s

/-- `community_scout/scanner/hn_scanner.py` `HNScanner.scan`.  The upstream
maximum ID, the item fetches and the clock are passed as explicit inputs;
`keyword_map` is the result of `get_active_keywords` and `source_id` that of
`get_content_source`. -/
def scan (fetch : List Nat → List HNItemData) (keyword_map : KeywordMap)
    (stored : Option ScannerState) (db : HNDB)
    (max_item_id initial_lookback now source_id : Nat) :
    HNDB × ScannerState × ScanResult :=
  let st := get_scanner_state stored
  let last_seen_id := st.last_seen_id
  let start_id := scanStartId last_seen_id max_item_id initial_lookback
  if start_id > max_item_id then
    (db, st, { items_scanned := 0, items_stored := 0, alerts_created := 0,
               last_seen_id := last_seen_id })
  else if keyword_map = [] then
    (db, update_scanner_state st max_item_id now,
     { items_scanned := 0, items_stored := 0, alerts_created := 0,
       last_seen_id := max_item_id })
  else
    let s := scanBatches fetch keyword_map source_id max_item_id now
      (max_item_id + 1 - start_id) start_id
      { db := db, st := st, scanned := 0, stored := 0, alerts := 0 }
    (s.db, s.st,
     { items_scanned := s.scanned, items_stored := s.stored,
       alerts_created := s.alerts, last_seen_id := max_item_id })

/-- One invocation of `HNScanner.scan` as seen from the runner: the varying
environment of a pass. -/
structure PassEnv where
  fetch : List Nat → List HNItemData
  keyword_map : KeywordMap
  max_item_id : Nat
  initial_lookback : Nat
  now : Nat
  source_id : Nat

/-- Successive scan passes against the same stored cursor. -/
def scanPasses (passes : List PassEnv) (init : HNDB × ScannerState) :
    HNDB × ScannerState :=
  passes.foldl (fun acc p =>
    let r := scan p.fetch p.keyword_map (some acc.2) acc.1
      p.max_item_id p.initial_lookback p.now p.source_id
    (r.1, r.2.1)) init

end CommunityScout

namespace RedditScout

/-- `reddit_scout/models/match.py` `MatchStatus`. -/
inductive MatchStatus
  | pending
  | done
  | skipped
deriving DecidableEq

/-- `reddit_scout/models/match.py` `RedditType`. -/
inductive RedditType
  | post
  | comment
deriving DecidableEq

/-- `reddit_scout/scanner/client.py` `RedditPost`. -/
structure RedditPost where
  id : List Char
  subreddit : List Char
  title : List Char
  selftext : List Char
  author : List Char
  permalink : List Char
  created_utc : Nat
  score : Nat
  num_comments : Nat
deriving DecidableEq

/-- `reddit_scout/scanner/client.py` `RedditComment`. -/
structure RedditComment where
  id : List Char
  subreddit : List Char
  body : List Char
  author : List Char
  permalink : List Char
  created_utc : Nat
  score : Nat
  link_title : List Char
deriving DecidableEq

/-- `reddit_scout/models/match.py` `Match` row.  `id` is the database
autoincrement key, left 0 at creation; `discovered_at` is omitted. -/
structure Match where
  id : Nat
  campaign_id : Nat
  reddit_id : List Char
  reddit_type : RedditType
  subreddit : List Char
  matched_keyword : List Char
  title : Option (List Char)
  body_snippet : List Char
  permalink : List Char
  author : List Char
  created_utc : Nat
  status : MatchStatus
  completed_at : Option Nat
  discord_message_id : Option (List Char)
deriving DecidableEq

/-- `reddit_scout/models/campaign.py` `Campaign`, restricted to the fields the
scanner and pipeline read; `keywords` holds the active keyword phrases. -/
structure Campaign where
  id : Nat
  name : List Char
  keywords : List (List Char)
  subreddits : List (List Char)
  last_scanned_at : Option Nat
  discord_channel_id : Option (List Char)
deriving DecidableEq

/-- `reddit_scout/scanner/service.py` `ScanResult`. -/
structure ScanResult where
  campaign_id : Nat
  campaign_name : List Char
  subreddits_scanned : Nat
  posts_checked : Nat
  comments_checked : Nat
  new_matches : Nat
  duplicates_skipped : Nat
  errors : List (List Char)
deriving DecidableEq

/-- `reddit_scout/scanner/service.py` `ScannerService._check_duplicate`:
an existing Match with this `(campaign_id, reddit_id)` pair. -/
def check_duplicate (db : List Match) (campaign_id : Nat) (reddit_id : List Char) :
    Bool :=
  db.any (fun m => m.campaign_id == campaign_id && m.reddit_id == reddit_id)

/-- `reddit_scout/scanner/service.py` `ScannerService._create_match_from_post`. -/
def create_match_from_post (c : Campaign) (p : RedditPost)
    (matched_keyword context_snippet : List Char) : Match :=
  { id := 0, campaign_id := c.id, reddit_id := 't' :: '3' :: '_' :: p.id,
    reddit_type := RedditType.post, subreddit := p.subreddit,
    matched_keyword := matched_keyword, title := some p.title,
    body_snippet := context_snippet,
    permalink := "https://reddit.com".data ++ p.permalink, author := p.author,
    created_utc := p.created_utc, status := MatchStatus.pending,
    completed_at := none, discord_message_id := none }

/-- `reddit_scout/scanner/service.py` `ScannerService._create_match_from_comment`. -/
def create_match_from_comment (c : Campaign) (cm : RedditComment)
    (matched_keyword context_snippet : List Char) : Match :=
  { id := 0, campaign_id := c.id, reddit_id := 't' :: '1' :: '_' :: cm.id,
    reddit_type := RedditType.comment, subreddit := cm.subreddit,
    matched_keyword := matched_keyword, title := some cm.link_title,
    body_snippet := context_snippet,
    permalink := "https://reddit.com".data ++ cm.permalink, author := cm.author,
    created_utc := cm.created_utc, status := MatchStatus.pending,
    completed_at := none, discord_message_id := none }

/-- The two fetch streams of `reddit_scout/scanner/client.py` `RedditClient`
as the scanner consumes them (subreddit name ↦ fetched items). -/
structure RedditFetch where
  posts : List Char → List RedditPost
  comments : List Char → List RedditComment

/-- The post loop body of `ScannerService.scan_campaign` (lines 182-205). -/
def scan_post_step (c : Campaign) (keywords : List (List Char))
    (acc : List Match × ScanResult) (p : RedditPost) : List Match × ScanResult :=
  let db := acc.1
  let res := { acc.2 with posts_checked := acc.2.posts_checked + 1 }
  match match_post p.title p.selftext keywords with
  | some mr =>
    let reddit_id := 't' :: '3' :: '_' :: p.id
    if check_duplicate db c.id reddit_id then
      (db, { res with duplicates_skipped := res.duplicates_skipped + 1 })
    else
      (db ++ [create_match_from_post c p mr.keyword mr.context_snippet],
       { res with new_matches := res.new_matches + 1 })
  | none => (db, res)

/-- The comment loop body of `ScannerService.scan_campaign` (lines 208-230). -/
def scan_comment_step (c : Campaign) (keywords : List (List Char))
    (acc : List Match × ScanResult) (cm : RedditComment) :
    List Match × ScanResult :=
  let db := acc.1
  let res := { acc.2 with comments_checked := acc.2.comments_checked + 1 }
  match match_comment cm.body keywords with
  | some mr =>
    let reddit_id := 't' :: '1' :: '_' :: cm.id
    if check_duplicate db c.id reddit_id then
      (db, { res with duplicates_skipped := res.duplicates_skipped + 1 })
    else
      (db ++ [create_match_from_comment c cm mr.keyword mr.context_snippet],
       { res with new_matches := res.new_matches + 1 })
  | none => (db, res)

/-- The per-subreddit body of `ScannerService.scan_campaign` (lines 176-237):
posts, then comments, then count the subreddit as scanned. -/
def scan_subreddit_step (c : Campaign) (keywords : List (List Char))
    (env : RedditFetch) (acc : List Match × ScanResult) (sub : List Char) :
    List Match × ScanResult :=
  let a1 := (env.posts sub).foldl (scan_post_step c keywords) acc
  let a2 := (env.comments sub).foldl (scan_comment_step c keywords) a1
  (a2.1, { a2.2 with subreddits_scanned := a2.2.subreddits_scanned + 1 })

/-- `reddit_scout/scanner/service.py` `ScannerService.scan_campaign`: scan each
configured subreddit, then stamp `last_scanned_at`.  Per-subreddit exceptions
are not modelled: the fetch environment is total, matching the non-raising
executions. -/
def scan_campaign (db : List Match) (c : Campaign) (env : RedditFetch)
    (now : Nat) : List Match × Campaign × ScanResult :=
  let init : List Match × ScanResult :=
    (db, { campaign_id := c.id, campaign_name := c.name, subreddits_scanned := 0,
           posts_checked := 0, comments_checked := 0, new_matches := 0,
           duplicates_skipped := 0, errors := [] })
  let out := c.subreddits.foldl (scan_subreddit_step c c.keywords env) init
  (out.1, { c with last_scanned_at := some now }, out.2)

end RedditScout

namespace RedditScout

/-- What one attempt of the wrapped PRAW call does
(`reddit_scout/scanner/client.py` `_with_retry`): succeed, raise
`TooManyRequests` (with its optional `retry_after`), or raise another
`ResponseException`/`PrawcoreException`. -/
inductive RetryOutcome
  | ok (v : Nat)
  | rateLimited (retry_after : Option Nat)
  | transientError
deriving DecidableEq

/-- How `_with_retry` terminates: a returned value, a re-raised transient
error, or falling out of the loop and returning `None`. -/
inductive RetryResult
  | value (v : Nat)
  | raised
  | returnedNone
deriving DecidableEq

/-- `reddit_scout/scanner/client.py` `RedditClient.MAX_RETRIES`. -/
def MAX_RETRIES : Nat := 3

/-- `reddit_scout/scanner/client.py` `RedditClient.RETRY_DELAY_SECONDS`. -/
def RETRY_DELAY_SECONDS : Nat := 5

/-- `reddit_scout/scanner/client.py` `RedditClient._handle_rate_limit`:
sleep for `retry_after` when present and truthy, else 60 seconds. -/
def handle_rate_limit_wait (retry_after : Option Nat) : Nat :=
  match retry_after with
  | some t => if t = 0 then 60 else t
  | none => 60

/-- The `for attempt in range(MAX_RETRIES)` loop of
`RedditClient._with_retry`; `script attempt` is what the wrapped call does on
that attempt, `sleeps` accumulates the `time.sleep` durations. -/
def with_retry_go (script : Nat → RetryOutcome) :
    Nat → Nat → List Nat → RetryResult × List Nat
  | 0, _attempt, sleeps => (RetryResult.returnedNone, sleeps)
  | remaining + 1, attempt, sleeps =>
    match script attempt with
    | RetryOutcome.ok v => (RetryResult.value v, sleeps)
    | RetryOutcome.rateLimited ra =>
      with_retry_go script remaining (attempt + 1)
        (sleeps ++ [handle_rate_limit_wait ra])
    | RetryOutcome.transientError =>
      if attempt < MAX_RETRIES - 1 then
        with_retry_go script remaining (attempt + 1)
          (sleeps ++ [RETRY_DELAY_SECONDS * (attempt + 1)])
      else (RetryResult.raised, sleeps)

/-- `reddit_scout/scanner/client.py` `RedditClient._with_retry`. -/
def with_retry (script : Nat → RetryOutcome) : RetryResult × List Nat :=
  with_retry_go script MAX_RETRIES 0 []

end RedditScout

namespace CommunityScout

/-- What one attempt of the HTTP GET in
`community_scout/hn/client.py` `_request_with_retry` does: return a value,
hit a 404, raise `httpx.HTTPStatusError` with some status code (carrying any
`Retry-After` header the server supplied, which the code never reads), or
raise `httpx.RequestError`. -/
inductive HNReqOutcome
  | ok (v : Nat)
  | notFound
  | statusError (code : Nat) (retry_after : Option Nat)
  | requestError
deriving DecidableEq

/-- How `_request_with_retry` terminates. -/
inductive HNReqResult
  | value (v : Nat)
  | returnedNone
  | raisedStatus
  | raisedRequest
deriving DecidableEq

/-- The `for attempt in range(max_retries)` loop of
`HNClient._request_with_retry`. -/
def request_with_retry_go (script : Nat → HNReqOutcome)
    (max_retries retry_delay : Nat) :
    Nat → Nat → List Nat → HNReqResult × List Nat
  | 0, _attempt, sleeps => (HNReqResult.returnedNone, sleeps)
  | remaining + 1, attempt, sleeps =>
    match script attempt with
    | HNReqOutcome.ok v => (HNReqResult.value v, sleeps)
    | HNReqOutcome.notFound => (HNReqResult.returnedNone, sleeps)
    | HNReqOutcome.statusError code _ra =>
      if code = 404 then (HNReqResult.returnedNone, sleeps)
      else if attempt < max_retries - 1 then
        request_with_retry_go script max_retries retry_delay remaining
          (attempt + 1) (sleeps ++ [retry_delay * 2 ^ attempt])
      else (HNReqResult.raisedStatus, sleeps)
    | HNReqOutcome.requestError =>
      if attempt < max_retries - 1 then
        request_with_retry_go script max_retries retry_delay remaining
          (attempt + 1) (sleeps ++ [retry_delay * 2 ^ attempt])
      else (HNReqResult.raisedRequest, sleeps)

/-- `community_scout/hn/client.py` `HNClient._request_with_retry`
(defaults: `max_retries = 3`, `retry_delay = 1`). -/
def request_with_retry (script : Nat → HNReqOutcome)
    (max_retries retry_delay : Nat) : HNReqResult × List Nat :=
  request_with_retry_go script max_retries retry_delay max_retries 0 []

end CommunityScout

namespace RedditScout

/-- `reddit_scout/bot/notifications.py` `NotificationResult`. -/
structure NotificationResult where
  success : Bool
  message_id : Option (List Char)
  error : Option (List Char)
deriving DecidableEq

/-- How the Discord channel resolves in
`reddit_scout/bot/notifications.py` `send_match_notification`:
found in cache or fetched (text channel or not), or the fetch raises
`NotFound`/`Forbidden`. -/
inductive ChannelRes
  | cachedText
  | cachedOther
  | fetchedText
  | fetchedOther
  | fetchNotFound
  | fetchForbidden
deriving DecidableEq

/-- What `channel.send` does. -/
inductive SendRes
  | sent (message_id : List Char)
  | forbidden
  | httpError (msg : List Char)
deriving DecidableEq

/-- The Discord-side environment of one `send_match_notification` call. -/
structure DiscordEnv where
  botReady : Bool
  channel : ChannelRes
  send : SendRes
deriving DecidableEq

/-- `reddit_scout/bot/notifications.py` `send_match_notification`: every
failure is returned as a `NotificationResult`, never raised. -/
def send_match_notification (env : DiscordEnv) (channel_id : List Char) :
    NotificationResult :=
  if !env.botReady then
    { success := false, message_id := none,
      error := some "Bot is not connected to Discord".data }
  else
    match env.channel with
    | ChannelRes.fetchNotFound =>
      { success := false, message_id := none,
        error := some ("Channel ".data ++ channel_id ++ " not found".data) }
    | ChannelRes.fetchForbidden =>
      { success := false, message_id := none,
        error := some ("Bot does not have access to channel ".data ++ channel_id) }
    | ChannelRes.cachedOther | ChannelRes.fetchedOther =>
      { success := false, message_id := none,
        error := some ("Channel ".data ++ channel_id ++ " is not a text channel".data) }
    | ChannelRes.cachedText | ChannelRes.fetchedText =>
      match env.send with
      | SendRes.sent mid => { success := true, message_id := some mid, error := none }
      | SendRes.forbidden =>
        { success := false, message_id := none,
          error := some ("Bot lacks permission to send messages to channel ".data
            ++ channel_id) }
      | SendRes.httpError e =>
        { success := false, message_id := none,
          error := some ("Discord API error: ".data ++ e) }

/-- What `ResponseGenerator.generate_response` does for one match
(`reddit_scout/pipeline.py` step 1): a draft, or a raised
`ResponseGeneratorError`. -/
inductive GenRes
  | ok (content : List Char) (tokens : Nat)
  | err (msg : List Char)
deriving DecidableEq

/-- `reddit_scout/pipeline.py` `MatchProcessingResult`. -/
structure MatchProcessingResult where
  match_id : Nat
  ai_generated : Bool
  ai_content : Option (List Char)
  ai_tokens : Nat
  notification_sent : Bool
  discord_message_id : Option (List Char)
  errors : List (List Char)
deriving DecidableEq

/-- `reddit_scout/pipeline.py` `MatchPipeline.process_match`: generate the AI
draft, then (when a channel is configured and generation succeeded) send the
Discord notification, recording the message id on the Match on success.
Returns the processing result and the (possibly updated) Match row. -/
def process_match (gen : GenRes) (env : DiscordEnv) (m : Match) (c : Campaign)
    (skip_notification : Bool) : MatchProcessingResult × Match :=
  let r0 : MatchProcessingResult :=
    { match_id := m.id, ai_generated := false, ai_content := none, ai_tokens := 0,
      notification_sent := false, discord_message_id := none, errors := [] }
  let r1 :=
    match gen with
    | GenRes.ok content tokens =>
      { r0 with ai_generated := true, ai_content := some content,
                ai_tokens := tokens }
    | GenRes.err msg =>
      { r0 with errors := r0.errors ++ ["AI generation failed: ".data ++ msg] }
  match c.discord_channel_id with
  | some cid =>
    if !skip_notification && cid ≠ [] && r1.ai_generated then
      let nr := send_match_notification env cid
      if nr.success then
        ({ r1 with notification_sent := true, discord_message_id := nr.message_id },
         { m with discord_message_id := nr.message_id })
      else
        ({ r1 with errors := r1.errors ++
            ["Discord notification failed: ".data ++ nr.error.getD []] }, m)
    else (r1, m)
  | none => (r1, m)

end RedditScout

namespace CommunityScout

/-- `community_scout/notifier/alert_notifier.py`: the notifier-side `UserAlert`
row (status, AI summary, delivered message reference). -/
structure UserAlertRow where
  id : Nat
  status : AlertStatus
  summary : Option (List Char)
  discord_message_id : Option (List Char)
deriving DecidableEq

/-- How the thread channel resolves in `AlertNotifier.send_alert`: a Discord
`Thread`, some other channel kind, or a raised `DiscordException`. -/
inductive ThreadChannelRes
  | isThread
  | notThread
  | fetchRaises
deriving DecidableEq

/-- What `thread.send` does. -/
inductive ThreadSendRes
  | ok (message_id : List Char)
  | discordError
deriving DecidableEq

/-- The environment of one `AlertNotifier.send_alert` call: the resolved
thread id (`get_or_create_source_thread`), the thread channel, the generated
summary (`generate_summary`, `None` on failure) and the send outcome. -/
structure NotifyEnv where
  thread_id : Option (List Char)
  channel : ThreadChannelRes
  summary : Option (List Char)
  send : ThreadSendRes
deriving DecidableEq

/-- `community_scout/notifier/alert_notifier.py` `AlertNotifier.send_alert`:
returns whether the alert went out, with the updated alert row.  On success
the status becomes `sent` and the message id is recorded; a raised
`DiscordException` is caught and reported as `false`. -/
def send_alert (env : NotifyEnv) (alert : UserAlertRow) : Bool × UserAlertRow :=
  match env.thread_id with
  | none => (false, alert)
  | some _tid =>
    match env.channel with
    | ThreadChannelRes.notThread => (false, alert)
    | ThreadChannelRes.fetchRaises => (false, alert)
    | ThreadChannelRes.isThread =>
      let alert := { alert with summary := env.summary }
      match env.send with
      | ThreadSendRes.ok mid =>
        (true, { alert with status := AlertStatus.sent,
                            discord_message_id := some mid })
      | ThreadSendRes.discordError => (false, alert)

end CommunityScout

/-! Helper lemmas about the string primitives. -/

namespace PyStr

theorem toNat_ofNat_valid {n : Nat} (h1 : 97 ≤ n) (h2 : n ≤ 122) :
    (Char.ofNat n).toNat = n := by
  unfold Char.ofNat
  split
  · rfl
  · next h => exact absurd (Or.inl (by omega)) h

theorem isSpace_false_of_toNat {x : Char} (h1 : 33 ≤ x.toNat) :
    isSpace x = false := by
  simp only [isSpace, Bool.or_eq_false_iff, beq_eq_false_iff_ne, ne_eq]
  refine ⟨⟨⟨⟨⟨?_, ?_⟩, ?_⟩, ?_⟩, ?_⟩, ?_⟩ <;>
    (intro he; subst he; exact absurd h1 (by decide))

theorem isSpace_lowerChar (c : Char) : isSpace (lowerChar c) = isSpace c := by
  unfold lowerChar
  split
  · next h =>
    have h1 : 65 ≤ c.toNat := by
      have := h.1
      rw [Char.le_def] at this
      exact this
    have h2 : c.toNat ≤ 90 := by
      have := h.2
      rw [Char.le_def] at this
      exact this
    have hv : (Char.ofNat (c.toNat + 32)).toNat = c.toNat + 32 :=
      toNat_ofNat_valid (by omega) (by omega)
    rw [isSpace_false_of_toNat (by omega), isSpace_false_of_toNat (by omega)]
  · rfl

theorem lower_no_space {kw : List Char} (h : ∀ c ∈ kw, isSpace c = false) :
    ∀ c ∈ lower kw, isSpace c = false := by
  intro c hc
  rw [lower, List.mem_map] at hc
  obtain ⟨a, ha, rfl⟩ := hc
  rw [isSpace_lowerChar]
  exact h a ha

theorem space_not_mem {l : List Char} (h : ∀ c ∈ l, isSpace c = false) :
    ' ' ∉ l := by
  intro hm
  have := h ' ' hm
  exact absurd this (by decide)

theorem dropWhile_eq_self_of {p : Char → Bool} :
    ∀ {l : List Char}, (∀ c ∈ l, p c = false) → l.dropWhile p = l := by
  intro l
  induction l with
  | nil => intro _; rfl
  | cons a l ih =>
    intro h
    rw [List.dropWhile_cons, h a (List.mem_cons_self _ _)]
    simp

theorem strip_eq_self {l : List Char} (h : ∀ c ∈ l, isSpace c = false) :
    strip l = l := by
  rw [strip, dropWhile_eq_self_of h]
  rw [dropWhile_eq_self_of (fun c hc => h c (List.mem_reverse.mp hc))]
  exact List.reverse_reverse l

theorem lower_ne_nil {kw : List Char} (h : kw ≠ []) : lower kw ≠ [] := by
  rw [lower]
  simpa using h

theorem slice_length (s : List Char) (a b : Nat) :
    (slice s a b).length = min b s.length - a := by
  rw [slice, List.length_drop, List.length_take]

theorem matchesAt_le {pat s : List Char} {i : Nat} (hp : pat ≠ [])
    (h : matchesAt pat s i = true) : i + pat.length ≤ s.length := by
  rw [matchesAt, beq_iff_eq] at h
  have hl := congrArg List.length h
  rw [slice_length] at hl
  have hpl : pat.length ≠ 0 := by simpa using hp
  omega

theorem searchWB_isSome_iff {pat s : List Char} (hp : pat ≠ []) :
    (searchWordBounded pat s).isSome = true ↔
      ∃ i, matchesAt pat s i = true ∧ boundaryAt s i = true ∧
        boundaryAt s (i + pat.length) = true := by
  rw [searchWordBounded, List.find?_isSome]
  constructor
  · rintro ⟨i, _, hpred⟩
    simp only [Bool.and_eq_true] at hpred
    exact ⟨i, hpred.1.1, hpred.1.2, hpred.2⟩
  · rintro ⟨i, h1, h2, h3⟩
    refine ⟨i, ?_, by simp [h1, h2, h3]⟩
    rw [List.mem_range]
    have := matchesAt_le hp h1
    have hpl : pat.length ≠ 0 := by simpa using hp
    omega

theorem find?_range'_min (p : Nat → Bool) :
    ∀ (n a x : Nat), (List.range' a n).find? p = some x →
      a ≤ x ∧ p x = true ∧ ∀ j, a ≤ j → j < x → p j = false := by
  intro n
  induction n with
  | zero => intro a x h; simp [List.range'] at h
  | succ n ih =>
    intro a x h
    rw [List.range'_succ] at h
    by_cases hpa : p a = true
    · rw [List.find?_cons_of_pos _ hpa] at h
      cases h
      exact ⟨Nat.le_refl _, hpa, fun j hj1 hj2 => absurd hj1 (by omega)⟩
    · rw [List.find?_cons_of_neg _ hpa] at h
      obtain ⟨ha, hx, hmin⟩ := ih (a + 1) x h
      refine ⟨by omega, hx, fun j hj1 hj2 => ?_⟩
      by_cases hja : j = a
      · subst hja
        exact Bool.not_eq_true _ ▸ hpa
      · exact hmin j (by omega) hj2

theorem findFrom_some {s : List Char} {c : Char} {start q : Nat}
    (h : findFrom s c start = some q) :
    start ≤ q ∧ s.get? q = some c ∧
      ∀ j, start ≤ j → j < q → s.get? j ≠ some c := by
  rw [findFrom] at h
  obtain ⟨h1, h2, h3⟩ := find?_range'_min _ _ _ _ h
  rw [beq_iff_eq] at h2
  refine ⟨h1, h2, fun j hj1 hj2 => ?_⟩
  have := h3 j hj1 hj2
  simpa [beq_iff_eq] using this

theorem findFrom_isSome {s : List Char} {c : Char} {start i : Nat}
    (h1 : start ≤ i) (h2 : i < s.length) (h3 : s.get? i = some c) :
    (findFrom s c start).isSome = true := by
  rw [findFrom, List.find?_isSome]
  refine ⟨i, ?_, by rw [beq_iff_eq]; exact h3⟩
  rw [List.mem_range']
  exact ⟨i - start, by omega, by omega⟩

theorem rfindRange_some {s : List Char} {c : Char} {lo hi q : Nat}
    (h : rfindRange s c lo hi = some q) :
    lo ≤ q ∧ q < hi ∧ s.get? q = some c := by
  rw [rfindRange] at h
  have hm := List.mem_of_find?_eq_some h
  rw [List.mem_reverse, List.mem_range'] at hm
  obtain ⟨k, hk, rfl⟩ := hm
  have hp := List.find?_some h
  rw [beq_iff_eq] at hp
  exact ⟨by omega, by omega, hp⟩

theorem rfindRange_isSome {s : List Char} {c : Char} {lo hi i : Nat}
    (h1 : lo ≤ i) (h2 : i < hi) (h3 : s.get? i = some c) :
    (rfindRange s c lo hi).isSome = true := by
  rw [rfindRange, List.find?_isSome]
  refine ⟨i, ?_, by rw [beq_iff_eq]; exact h3⟩
  rw [List.mem_reverse, List.mem_range']
  exact ⟨i - lo, by omega, by omega⟩

end PyStr

/-- Specification-to-search bridge: the whole-token occurrence predicate holds
exactly when the word-bounded search on the lowered strings succeeds. -/
theorem occurs_iff_search {kw text : List Char} (hk : kw ≠ []) :
    OccursAsWholeToken kw text ↔
      (PyStr.searchWordBounded (PyStr.lower kw) (PyStr.lower text)).isSome = true := by
  rw [PyStr.searchWB_isSome_iff (PyStr.lower_ne_nil hk)]
  unfold OccursAsWholeToken
  refine exists_congr fun i => ?_
  rw [PyStr.matchesAt, beq_iff_eq]

theorem occurs_nil {kw : List Char} (hk : kw ≠ []) :
    ¬ OccursAsWholeToken kw [] := by
  rintro ⟨i, h1, -, -⟩
  have : PyStr.slice (PyStr.lower []) i (i + (PyStr.lower kw).length) = [] := by
    simp [PyStr.slice, PyStr.lower]
  rw [this] at h1
  exact PyStr.lower_ne_nil hk h1.symm

/-! Helper lemmas about the retry wrappers. -/

namespace RedditScout

/-- The retry loop only consults the wrapped call on attempts `0, …, remaining-1`
past `attempt`: scripts that agree there produce identical runs. -/
theorem with_retry_go_congr (s s' : Nat → RetryOutcome) :
    ∀ remaining attempt sleeps,
      (∀ i, attempt ≤ i → i < attempt + remaining → s i = s' i) →
      with_retry_go s remaining attempt sleeps =
        with_retry_go s' remaining attempt sleeps := by
  intro remaining
  induction remaining with
  | zero => intro attempt sleeps _; rfl
  | succ n ih =>
    intro attempt sleeps h
    have hh := h attempt (Nat.le_refl _) (by omega)
    simp only [with_retry_go, hh]
    cases hs : s' attempt with
    | ok v => simp [hs]
    | rateLimited ra =>
      simp only [hs]
      exact ih (attempt + 1) _ (fun i h1 h2 => h i (by omega) (by omega))
    | transientError =>
      simp only [hs]
      split
      · exact ih (attempt + 1) _ (fun i h1 h2 => h i (by omega) (by omega))
      · rfl

end RedditScout

namespace CommunityScout

/-- As `RedditScout.with_retry_go_congr`, for the HN client's retry loop. -/
theorem request_with_retry_go_congr (s s' : Nat → HNReqOutcome) (mr rd : Nat) :
    ∀ remaining attempt sleeps,
      (∀ i, attempt ≤ i → i < attempt + remaining → s i = s' i) →
      request_with_retry_go s mr rd remaining attempt sleeps =
        request_with_retry_go s' mr rd remaining attempt sleeps := by
  intro remaining
  induction remaining with
  | zero => intro attempt sleeps _; rfl
  | succ n ih =>
    intro attempt sleeps h
    have hh := h attempt (Nat.le_refl _) (by omega)
    simp only [request_with_retry_go, hh]
    cases hs : s' attempt with
    | ok v => simp [hs]
    | notFound => simp [hs]
    | statusError code ra =>
      simp only [hs]
      split
      · rfl
      · split
        · exact ih (attempt + 1) _ (fun i h1 h2 => h i (by omega) (by omega))
        · rfl
    | requestError =>
      simp only [hs]
      split
      · exact ih (attempt + 1) _ (fun i h1 h2 => h i (by omega) (by omega))
      · rfl

end CommunityScout

/-! Helper lemmas for cursor monotonicity of the HN scan. -/

namespace CommunityScout

/-- The per-item fold of a batch never touches the scanner state. -/
theorem processFold_st (km : KeywordMap) (sid : Nat) :
    ∀ (items : List HNItemData) (s : BatchLoopState),
      (items.foldl (fun acc item =>
        let p := process_item acc.db item km sid
        { acc with db := p.1, stored := acc.stored + 1,
                   alerts := acc.alerts + p.2 }) s).st = s.st := by
  intro items
  induction items with
  | nil => intro s; rfl
  | cons x xs ih => intro s; simp only [List.foldl]; rw [ih]

/-- Every batch commits a cursor value at least the batch's start, so a loop
entered with the cursor strictly below `current_id` never lowers it. -/
theorem scanBatches_st_mono (fetch : List Nat → List HNItemData)
    (km : KeywordMap) (sid maxid now : Nat) :
    ∀ fuel current (s : BatchLoopState), s.st.last_seen_id < current →
      s.st.last_seen_id ≤
        (scanBatches fetch km sid maxid now fuel current s).st.last_seen_id := by
  intro fuel
  induction fuel with
  | zero => intro current s _; exact Nat.le_refl _
  | succ n ih =>
    intro current s h
    simp only [scanBatches]
    split
    · rename_i hc
      refine Nat.le_trans ?_ (ih (min (current + BATCH_SIZE) (maxid + 1)) _ ?_)
      · simp only [update_scanner_state]
        have : 1 ≤ min (current + BATCH_SIZE) (maxid + 1) := by
          simp only [BATCH_SIZE]; omega
        omega
      · simp only [update_scanner_state]
        simp only [BATCH_SIZE]; omega
    · exact Nat.le_refl _

/-- One scan pass never moves the stored cursor backward. -/
theorem scan_cursor_mono (fetch : List Nat → List HNItemData) (km : KeywordMap)
    (stored : Option ScannerState) (db : HNDB) (maxid lb now sid : Nat) :
    (get_scanner_state stored).last_seen_id ≤
      (scan fetch km stored db maxid lb now sid).2.1.last_seen_id := by
  simp only [scan]
  split
  · exact Nat.le_refl _
  · rename_i hgt
    have hle : scanStartId (get_scanner_state stored).last_seen_id maxid lb ≤ maxid := by
      omega
    split
    · simp only [update_scanner_state]
      simp only [scanStartId] at hle
      split at hle <;> omega
    · exact scanBatches_st_mono fetch km sid maxid now
        (maxid + 1 - scanStartId (get_scanner_state stored).last_seen_id maxid lb)
        (scanStartId (get_scanner_state stored).last_seen_id maxid lb)
        { db := db, st := get_scanner_state stored, scanned := 0, stored := 0,
          alerts := 0 }
        (by simp only [scanStartId]; split <;> omega)

/-- Iterating scan passes keeps the cursor non-decreasing. -/
theorem scanPasses_mono :
    ∀ (passes : List PassEnv) (acc : HNDB × ScannerState),
      acc.2.last_seen_id ≤ (scanPasses passes acc).2.last_seen_id := by
  intro passes
  induction passes with
  | nil => intro acc; exact Nat.le_refl _
  | cons p ps ih =>
    intro acc
    have hstep : scanPasses (p :: ps) acc =
        scanPasses ps
          ((scan p.fetch p.keyword_map (some acc.2) acc.1 p.max_item_id
              p.initial_lookback p.now p.source_id).1,
           (scan p.fetch p.keyword_map (some acc.2) acc.1 p.max_item_id
              p.initial_lookback p.now p.source_id).2.1) := rfl
    rw [hstep]
    exact Nat.le_trans
      (scan_cursor_mono p.fetch p.keyword_map (some acc.2) acc.1 p.max_item_id
        p.initial_lookback p.now p.source_id)
      (ih ((scan p.fetch p.keyword_map (some acc.2) acc.1 p.max_item_id
              p.initial_lookback p.now p.source_id).1,
           (scan p.fetch p.keyword_map (some acc.2) acc.1 p.max_item_id
              p.initial_lookback p.now p.source_id).2.1))

end CommunityScout

/-! Helper lemmas for Match-key uniqueness of the campaign scan. -/

namespace RedditScout

/-- The deduplication key of a Match. -/
def MatchKey (m : Match) : Nat × List Char := (m.campaign_id, m.reddit_id)

/-- No two Matches share a `(campaign_id, reddit_id)` pair. -/
def KeyUnique (db : List Match) : Prop :=
  List.Pairwise (fun a b => MatchKey a ≠ MatchKey b) db

theorem check_duplicate_false {db : List Match} {cid : Nat} {rid : List Char}
    (h : check_duplicate db cid rid = false) :
    ∀ m ∈ db, ¬(m.campaign_id = cid ∧ m.reddit_id = rid) := by
  intro m hm
  rw [check_duplicate, List.any_eq_false] at h
  have hx := h m hm
  simpa [Bool.and_eq_true, beq_iff_eq] using hx

theorem keyUnique_append (db : List Match) (m : Match) (h : KeyUnique db)
    (hm : ∀ x ∈ db, MatchKey x ≠ MatchKey m) : KeyUnique (db ++ [m]) := by
  rw [KeyUnique, List.pairwise_append]
  refine ⟨h, List.pairwise_singleton _ _, fun a ha b hb => ?_⟩
  simp only [List.mem_singleton] at hb
  subst hb
  exact hm a ha

theorem foldl_preserves {γ : Type} {δ : Type} (P : γ → Prop) (f : γ → δ → γ)
    (hf : ∀ a x, P a → P (f a x)) :
    ∀ (l : List δ) (a : γ), P a → P (l.foldl f a) := by
  intro l
  induction l with
  | nil => intro a h; exact h
  | cons x xs ih => intro a h; exact ih _ (hf _ _ h)

theorem scan_post_step_preserves (c : Campaign) (keywords : List (List Char))
    (acc : List Match × ScanResult) (p : RedditPost) (h : KeyUnique acc.1) :
    KeyUnique (scan_post_step c keywords acc p).1 := by
  cases hmp : match_post p.title p.selftext keywords with
  | none => simpa only [scan_post_step, hmp] using h
  | some mr =>
    simp only [scan_post_step, hmp]
    by_cases hdup : check_duplicate acc.1 c.id ('t' :: '3' :: '_' :: p.id) = true
    · rw [if_pos hdup]; exact h
    · rw [if_neg hdup]
      refine keyUnique_append _ _ h ?_
      intro x hx
      have hf := check_duplicate_false (Bool.not_eq_true _ ▸ hdup : _ = false) x hx
      simp only [MatchKey, create_match_from_post, ne_eq, Prod.mk.injEq, not_and]
      intro h1 h2
      exact hf ⟨h1, h2⟩

theorem scan_comment_step_preserves (c : Campaign) (keywords : List (List Char))
    (acc : List Match × ScanResult) (cm : RedditComment) (h : KeyUnique acc.1) :
    KeyUnique (scan_comment_step c keywords acc cm).1 := by
  cases hmp : match_comment cm.body keywords with
  | none => simpa only [scan_comment_step, hmp] using h
  | some mr =>
    simp only [scan_comment_step, hmp]
    by_cases hdup : check_duplicate acc.1 c.id ('t' :: '1' :: '_' :: cm.id) = true
    · rw [if_pos hdup]; exact h
    · rw [if_neg hdup]
      refine keyUnique_append _ _ h ?_
      intro x hx
      have hf := check_duplicate_false (Bool.not_eq_true _ ▸ hdup : _ = false) x hx
      simp only [MatchKey, create_match_from_comment, ne_eq, Prod.mk.injEq, not_and]
      intro h1 h2
      exact hf ⟨h1, h2⟩

theorem scan_subreddit_step_preserves (c : Campaign) (keywords : List (List Char))
    (env : RedditFetch) (acc : List Match × ScanResult) (sub : List Char)
    (h : KeyUnique acc.1) :
    KeyUnique (scan_subreddit_step c keywords env acc sub).1 := by
  simp only [scan_subreddit_step]
  exact foldl_preserves (fun a => KeyUnique a.1) _
    (fun a x ha => scan_comment_step_preserves c keywords a x ha) _ _
    (foldl_preserves (fun a => KeyUnique a.1) _
      (fun a x ha => scan_post_step_preserves c keywords a x ha) _ _ h)

theorem scan_campaign_preserves (db : List Match) (c : Campaign)
    (env : RedditFetch) (now : Nat) (h : KeyUnique db) :
    KeyUnique (scan_campaign db c env now).1 := by
  simp only [scan_campaign]
  exact foldl_preserves (fun a => KeyUnique a.1) _
    (fun a x ha => scan_subreddit_step_preserves c c.keywords env a x ha)
    c.subreddits
    (db, { campaign_id := c.id, campaign_name := c.name, subreddits_scanned := 0,
           posts_checked := 0, comments_checked := 0, new_matches := 0,
           duplicates_skipped := 0, errors := [] }) h

/-! Helper lemmas for the context-snippet bounds. -/

theorem contextBounds_fst_eq (t : List Char) (ms me cc : Nat) :
    (contextBounds t ms me cc).1 =
      (if 0 < ms - cc then
        match PyStr.findFrom t ' ' (ms - cc) with
        | some p => if p < ms then p + 1 else ms - cc
        | none => ms - cc
      else ms - cc) := rfl

theorem contextBounds_snd_eq (t : List Char) (ms me cc : Nat) :
    (contextBounds t ms me cc).2 =
      (if min t.length (me + cc) < t.length then
        match PyStr.rfindRange t ' ' me (min t.length (me + cc)) with
        | some p => p
        | none => min t.length (me + cc)
      else min t.length (me + cc)) := rfl

end RedditScout

/-! The claims. -/

/-- C1: cursor monotonicity.  Every cursor write performed with a value at or
above the stored position leaves the position non-decreased (and the scanner
only passes the last ID of a just-committed batch, which is above the stored
position); a single scan pass never lowers `last_seen_id`; and across any
number of successive scan passes with no intervening reset the stored
`last_seen_id` is non-decreasing. -/
theorem c1_cursor_monotonicity :
    (∀ (st : CommunityScout.ScannerState) (v now : Nat), st.last_seen_id ≤ v →
      st.last_seen_id ≤
        (CommunityScout.update_scanner_state st v now).last_seen_id) ∧
    (∀ (fetch : List Nat → List CommunityScout.HNItemData)
       (km : CommunityScout.KeywordMap)
       (stored : Option CommunityScout.ScannerState) (db : CommunityScout.HNDB)
       (maxid lb now sid : Nat),
      (CommunityScout.get_scanner_state stored).last_seen_id ≤
        (CommunityScout.scan fetch km stored db maxid lb now sid).2.1.last_seen_id) ∧
    (∀ (passes : List CommunityScout.PassEnv) (db : CommunityScout.HNDB)
       (st : CommunityScout.ScannerState),
      st.last_seen_id ≤
        (CommunityScout.scanPasses passes (db, st)).2.last_seen_id) :=
  ⟨fun _st _v _now h => h, CommunityScout.scan_cursor_mono,
   fun passes db st => CommunityScout.scanPasses_mono passes (db, st)⟩

theorem c1_cursor_monotonicity_witness :
    (5 : Nat) ≤ 7 ∧
    (5 : Nat) ≤ (CommunityScout.update_scanner_state
      { last_seen_id := 5, last_scan_at := none } 7 3).last_seen_id :=
  ⟨by decide,
   c1_cursor_monotonicity.1 { last_seen_id := 5, last_scan_at := none } 7 3
     (by decide)⟩

/-- C2: for a nonempty single-word keyword (no whitespace), both matchers
report a hit on a text exactly when the keyword occurs in it as a
case-insensitive whole token bounded by word boundaries. -/
theorem c2_single_word_whole_token (kw text : List Char) (hk : kw ≠ [])
    (hw : ∀ c ∈ kw, PyStr.isSpace c = false) :
    ((RedditScout.match_keywords text [kw]).isSome = true ↔
      OccursAsWholeToken kw text) ∧
    (kw ∈ CommunityScout.match_keywords (some text) [kw] ↔
      OccursAsWholeToken kw text) := by
  have e1 : PyStr.strip (PyStr.lower kw) = PyStr.lower kw :=
    PyStr.strip_eq_self (PyStr.lower_no_space hw)
  have e2 : PyStr.lower kw ≠ [] := PyStr.lower_ne_nil hk
  have e3 : ' ' ∉ PyStr.lower kw := PyStr.space_not_mem (PyStr.lower_no_space hw)
  have e4 : ' ' ∉ kw := PyStr.space_not_mem hw
  by_cases ht : text = []
  · subst ht
    constructor
    · refine iff_of_false ?_ (occurs_nil hk)
      simp [RedditScout.match_keywords]
    · refine iff_of_false ?_ (occurs_nil hk)
      simp [CommunityScout.match_keywords]
  · constructor
    · rw [RedditScout.match_keywords, if_neg (by simp [ht])]
      rw [RedditScout.matchKeywordsGo, e1]
      rw [if_neg e2, if_neg e3]
      cases hS : PyStr.searchWordBounded (PyStr.lower kw) (PyStr.lower text) with
      | none =>
        refine iff_of_false (by simp [RedditScout.matchKeywordsGo]) ?_
        rw [occurs_iff_search hk, hS]
        simp
      | some pos =>
        refine iff_of_true (by simp) ?_
        rw [occurs_iff_search hk, hS]
        rfl
    · rw [CommunityScout.match_keywords]
      rw [if_neg ht]
      simp only [List.foldl]
      rw [if_neg e4]
      cases hS : PyStr.searchWordBounded (PyStr.lower kw) (PyStr.lower text) with
      | none =>
        refine iff_of_false (by simp) ?_
        rw [occurs_iff_search hk, hS]
        simp
      | some pos =>
        refine iff_of_true (by simp) ?_
        rw [occurs_iff_search hk, hS]
        rfl

theorem c2_single_word_whole_token_witness :
    ("python".data ≠ [] ∧ ∀ c ∈ "python".data, PyStr.isSpace c = false) ∧
    OccursAsWholeToken "python".data "I love Python".data ∧
    ¬ OccursAsWholeToken "python".data "Pythonic code".data :=
  ⟨⟨by decide, by decide⟩,
   (c2_single_word_whole_token "python".data "I love Python".data
     (by decide) (by decide)).1.mp (by decide),
   fun h => absurd
     ((c2_single_word_whole_token "python".data "Pythonic code".data
       (by decide) (by decide)).1.mpr h)
     (by decide)⟩

/-- C3: a duplicate Match is a no-op.  Scanning a campaign whose fetched post
matches a keyword creates exactly one Match (from the title); re-running the
same scan with the same post returned again creates no new Match, reports
`duplicates_skipped = 1` and `new_matches = 0`, and leaves the Match table
unchanged. -/
theorem c3_duplicate_rescan_noop :
    (let camp : RedditScout.Campaign :=
      { id := 1, name := "camp".data, keywords := ["scanner".data],
        subreddits := ["python".data], last_scanned_at := none,
        discord_channel_id := none }
     let post : RedditScout.RedditPost :=
      { id := "abc".data, subreddit := "python".data,
        title := "Looking for a good scanner".data, selftext := [],
        author := "u1".data, permalink := "/r/python/x1".data,
        created_utc := 0, score := 0, num_comments := 0 }
     let env : RedditScout.RedditFetch := ⟨fun _ => [post], fun _ => []⟩
     let first := RedditScout.scan_campaign [] camp env 5
     let second := RedditScout.scan_campaign first.1 camp env 6
     first.2.2.new_matches = 1 ∧
     first.1.map (·.matched_keyword) = ["scanner".data] ∧
     first.1.map (·.title) = [some "Looking for a good scanner".data] ∧
     second.2.2.duplicates_skipped = 1 ∧
     second.2.2.new_matches = 0 ∧
     second.1 = first.1) := by decide

/-- C4 counterexample: with `upstream_max = 1000` and `initial_lookback = 100`
the fresh-cursor start ID computed by the scanner is 900, not 901 as the claim
states, and the first scan therefore covers 101 IDs (900..1000), observable as
`items_scanned = 101`. -/
theorem c4_first_scan_start_counterexample :
    CommunityScout.scanStartId 0 1000 100 = 900 ∧ (900 : Nat) ≠ 901 ∧
    (CommunityScout.scan (fun _ => []) [("k".data, [(1, 1)])] none ⟨[], []⟩
        1000 100 7 1).2.2.items_scanned = 101 := by decide

/-- C4 (amended): for a fresh cursor (position 0) the starting ID is
`max(1, upstream_max - initial_lookback)`; with `upstream_max = 1000` and
`initial_lookback = 100` that is ID 900 (not ID 1), and the first scan covers
the 101 IDs from 900 to 1000, ending with the cursor at 1000. -/
theorem c4_first_scan_lookback :
    (∀ maxid lb : Nat, CommunityScout.scanStartId 0 maxid lb = max 1 (maxid - lb)) ∧
    CommunityScout.scanStartId 0 1000 100 = 900 ∧
    (CommunityScout.scan (fun _ => []) [("k".data, [(1, 1)])] none ⟨[], []⟩
        1000 100 7 1).2.2.items_scanned = 101 ∧
    (CommunityScout.scan (fun _ => []) [("k".data, [(1, 1)])] none ⟨[], []⟩
        1000 100 7 1).2.1.last_seen_id = 1000 :=
  ⟨fun _maxid _lb => rfl, by decide, by decide, by decide⟩

/-- C5: when no active keyword subscriptions exist and the computed start ID
does not exceed the upstream maximum, the scan performs no matching and no
writes, but still advances the cursor to `upstream_max` and returns zero
counts. -/
theorem c5_no_subscriptions_advances_cursor
    (fetch : List Nat → List CommunityScout.HNItemData)
    (stored : Option CommunityScout.ScannerState) (db : CommunityScout.HNDB)
    (maxid lb now sid : Nat)
    (h : CommunityScout.scanStartId
        (CommunityScout.get_scanner_state stored).last_seen_id maxid lb ≤ maxid) :
    CommunityScout.scan fetch [] stored db maxid lb now sid =
      (db, CommunityScout.update_scanner_state
            (CommunityScout.get_scanner_state stored) maxid now,
       { items_scanned := 0, items_stored := 0, alerts_created := 0,
         last_seen_id := maxid }) := by
  simp only [CommunityScout.scan]
  rw [if_neg (by omega), if_pos trivial]

theorem c5_no_subscriptions_advances_cursor_witness :
    CommunityScout.scanStartId
      (CommunityScout.get_scanner_state none).last_seen_id 10 5 ≤ 10 ∧
    CommunityScout.scan (fun _ => []) [] none ⟨[], []⟩ 10 5 3 1 =
      (⟨[], []⟩, CommunityScout.update_scanner_state
        (CommunityScout.get_scanner_state none) 10 3,
       { items_scanned := 0, items_stored := 0, alerts_created := 0,
         last_seen_id := 10 }) :=
  ⟨by decide,
   c5_no_subscriptions_advances_cursor (fun _ => []) none ⟨[], []⟩ 10 5 3 1
     (by decide)⟩

/-- C6 counterexample: in the Reddit match pipeline a fully successful
delivery records the Discord message id on the Match but leaves its status
unchanged at `pending` — the `MatchStatus` enum has no SENT value, so the
claimed transition to SENT does not happen on this delivery path. -/
theorem c6_sent_status_counterexample :
    (RedditScout.process_match (RedditScout.GenRes.ok "draft".data 5)
      ⟨true, RedditScout.ChannelRes.cachedText, RedditScout.SendRes.sent "42".data⟩
      { id := 10, campaign_id := 1, reddit_id := "t3_x".data,
        reddit_type := RedditScout.RedditType.post, subreddit := "s".data,
        matched_keyword := "kw".data, title := some "T".data,
        body_snippet := "snip".data, permalink := "/p".data, author := "a".data,
        created_utc := 0, status := RedditScout.MatchStatus.pending,
        completed_at := none, discord_message_id := none }
      { id := 1, name := "c".data, keywords := [], subreddits := [],
        last_scanned_at := none, discord_channel_id := some "123".data }
      false).2.discord_message_id = some "42".data ∧
    (RedditScout.process_match (RedditScout.GenRes.ok "draft".data 5)
      ⟨true, RedditScout.ChannelRes.cachedText, RedditScout.SendRes.sent "42".data⟩
      { id := 10, campaign_id := 1, reddit_id := "t3_x".data,
        reddit_type := RedditScout.RedditType.post, subreddit := "s".data,
        matched_keyword := "kw".data, title := some "T".data,
        body_snippet := "snip".data, permalink := "/p".data, author := "a".data,
        created_utc := 0, status := RedditScout.MatchStatus.pending,
        completed_at := none, discord_message_id := none }
      { id := 1, name := "c".data, keywords := [], subreddits := [],
        last_scanned_at := none, discord_channel_id := some "123".data }
      false).2.status = RedditScout.MatchStatus.pending := by decide

/-- C6 (amended): on every successful send the HN alert notifier records the
delivered message reference on the alert and sets its status to SENT; the
Reddit match pipeline records the delivered message reference on the Match but
leaves the Match status unchanged (there is no SENT value in its status enum). -/
theorem c6_delivery_success_updates :
    (∀ (alert : CommunityScout.UserAlertRow) (tid : List Char)
       (summary : Option (List Char)) (mid : List Char),
      CommunityScout.send_alert
        ⟨some tid, CommunityScout.ThreadChannelRes.isThread, summary,
         CommunityScout.ThreadSendRes.ok mid⟩ alert =
        (true, { alert with
                  summary := summary,
                  status := CommunityScout.AlertStatus.sent,
                  discord_message_id := some mid })) ∧
    (∀ (content : List Char) (tokens : Nat) (m : RedditScout.Match)
       (c : RedditScout.Campaign) (ch mid : List Char),
      (RedditScout.process_match (RedditScout.GenRes.ok content tokens)
        ⟨true, RedditScout.ChannelRes.cachedText, RedditScout.SendRes.sent mid⟩
        m { c with discord_channel_id := some ('#' :: ch) } false).2 =
          { m with discord_message_id := some mid } ∧
      (RedditScout.process_match (RedditScout.GenRes.ok content tokens)
        ⟨true, RedditScout.ChannelRes.cachedText, RedditScout.SendRes.sent mid⟩
        m { c with discord_channel_id := some ('#' :: ch) } false).2.status =
          m.status) := by
  constructor
  · intro alert tid summary mid; rfl
  · intro content tokens m c ch mid
    constructor
    · simp [RedditScout.process_match, RedditScout.send_match_notification]
    · simp [RedditScout.process_match, RedditScout.send_match_notification]

/-- C7: a delivery whose destination channel resolves to forbidden or
not-found produces a typed failure result (success = false, an error message,
no message id) without raising; the Match row is returned unchanged — still
`pending`, with no message reference — and the processing result records the
delivery failure in its error list with `notification_sent = false`. -/
theorem c7_forbidden_delivery_failure (content : List Char) (tokens : Nat)
    (m : RedditScout.Match) (c : RedditScout.Campaign) (cid : List Char)
    (env : RedditScout.DiscordEnv)
    (hc : c.discord_channel_id = some cid) (hcid : cid ≠ [])
    (hb : env.botReady = true)
    (hch : env.channel = RedditScout.ChannelRes.fetchForbidden ∨
           env.channel = RedditScout.ChannelRes.fetchNotFound)
    (hm : m.status = RedditScout.MatchStatus.pending) :
    (RedditScout.send_match_notification env cid).success = false ∧
    (RedditScout.send_match_notification env cid).message_id = none ∧
    (RedditScout.send_match_notification env cid).error ≠ none ∧
    (RedditScout.process_match (RedditScout.GenRes.ok content tokens)
        env m c false).2 = m ∧
    (RedditScout.process_match (RedditScout.GenRes.ok content tokens)
        env m c false).2.status = RedditScout.MatchStatus.pending ∧
    (RedditScout.process_match (RedditScout.GenRes.ok content tokens)
        env m c false).1.notification_sent = false ∧
    (RedditScout.process_match (RedditScout.GenRes.ok content tokens)
        env m c false).1.discord_message_id = none ∧
    (RedditScout.process_match (RedditScout.GenRes.ok content tokens)
        env m c false).1.errors ≠ [] := by
  obtain ⟨b, chn, snd⟩ := env
  simp only at hb hch
  subst hb
  rcases hch with h | h <;> subst h <;>
    simp [RedditScout.send_match_notification, RedditScout.process_match, hc,
      hcid, hm]

theorem c7_forbidden_delivery_failure_witness :
    ({ id := 1, name := "c".data, keywords := [], subreddits := [],
       last_scanned_at := none,
       discord_channel_id := some "123".data } : RedditScout.Campaign).discord_channel_id
        = some "123".data ∧
    ("123".data ≠ []) ∧
    (RedditScout.process_match (RedditScout.GenRes.ok "hi".data 2)
      ⟨true, RedditScout.ChannelRes.fetchForbidden, RedditScout.SendRes.forbidden⟩
      { id := 10, campaign_id := 1, reddit_id := "t3_x".data,
        reddit_type := RedditScout.RedditType.post, subreddit := "s".data,
        matched_keyword := "kw".data, title := some "T".data,
        body_snippet := "snip".data, permalink := "/p".data, author := "a".data,
        created_utc := 0, status := RedditScout.MatchStatus.pending,
        completed_at := none, discord_message_id := none }
      { id := 1, name := "c".data, keywords := [], subreddits := [],
        last_scanned_at := none, discord_channel_id := some "123".data }
      false).2.status = RedditScout.MatchStatus.pending :=
  ⟨rfl, by decide,
   (c7_forbidden_delivery_failure "hi".data 2
      { id := 10, campaign_id := 1, reddit_id := "t3_x".data,
        reddit_type := RedditScout.RedditType.post, subreddit := "s".data,
        matched_keyword := "kw".data, title := some "T".data,
        body_snippet := "snip".data, permalink := "/p".data, author := "a".data,
        created_utc := 0, status := RedditScout.MatchStatus.pending,
        completed_at := none, discord_message_id := none }
      { id := 1, name := "c".data, keywords := [], subreddits := [],
        last_scanned_at := none, discord_channel_id := some "123".data }
      "123".data
      ⟨true, RedditScout.ChannelRes.fetchForbidden, RedditScout.SendRes.forbidden⟩
      rfl (by decide) rfl (Or.inl rfl) rfl).2.2.2.2.1⟩

/-- C8 counterexample: three successive rate-limited attempts make the Reddit
retry wrapper fall out of its loop and return None — it sleeps the
provider-supplied retry-after (here 30s) each time, but surfaces no typed
error on exhaustion, contradicting the claim. -/
theorem c8_rate_limit_counterexample :
    RedditScout.with_retry (fun _ => RedditScout.RetryOutcome.rateLimited (some 30)) =
      (RedditScout.RetryResult.returnedNone, [30, 30, 30]) ∧
    RedditScout.RetryResult.returnedNone ≠ RedditScout.RetryResult.raised := by
  constructor
  · rfl
  · decide

/-- C8 (amended): both wrappers are bounded at 3 attempts (their behaviour
depends only on attempts 0..2).  The Reddit wrapper sleeps the provider
retry-after on each rate-limited attempt (60s when absent or zero) and after
three rate-limited attempts returns None without surfacing an error; for other
transient errors it sleeps 5·(attempt+1) seconds and re-raises the error on
the third failure.  The HN wrapper sleeps base·2^attempt — ignoring any
provider retry-after — and re-raises after the third failure of a
429-equivalent status error or a transport error. -/
theorem c8_retry_backoff :
    (∀ s s' : Nat → RedditScout.RetryOutcome,
      (∀ i, i < RedditScout.MAX_RETRIES → s i = s' i) →
      RedditScout.with_retry s = RedditScout.with_retry s') ∧
    (∀ ra, RedditScout.with_retry (fun _ => RedditScout.RetryOutcome.rateLimited ra) =
      (RedditScout.RetryResult.returnedNone,
       [RedditScout.handle_rate_limit_wait ra, RedditScout.handle_rate_limit_wait ra,
        RedditScout.handle_rate_limit_wait ra])) ∧
    (∀ w : Nat, RedditScout.handle_rate_limit_wait (some (w + 1)) = w + 1) ∧
    RedditScout.handle_rate_limit_wait (some 0) = 60 ∧
    RedditScout.handle_rate_limit_wait none = 60 ∧
    RedditScout.with_retry (fun _ => RedditScout.RetryOutcome.transientError) =
      (RedditScout.RetryResult.raised,
       [RedditScout.RETRY_DELAY_SECONDS * 1, RedditScout.RETRY_DELAY_SECONDS * 2]) ∧
    (∀ v, RedditScout.with_retry (fun _ => RedditScout.RetryOutcome.ok v) =
      (RedditScout.RetryResult.value v, [])) ∧
    (∀ s s' : Nat → CommunityScout.HNReqOutcome, ∀ mr rd,
      (∀ i, i < mr → s i = s' i) →
      CommunityScout.request_with_retry s mr rd =
        CommunityScout.request_with_retry s' mr rd) ∧
    (∀ d ra, CommunityScout.request_with_retry
        (fun _ => CommunityScout.HNReqOutcome.statusError 429 ra) 3 d =
      (CommunityScout.HNReqResult.raisedStatus, [d * 2 ^ 0, d * 2 ^ 1])) ∧
    (∀ d, CommunityScout.request_with_retry
        (fun _ => CommunityScout.HNReqOutcome.requestError) 3 d =
      (CommunityScout.HNReqResult.raisedRequest, [d * 2 ^ 0, d * 2 ^ 1])) := by
  refine ⟨?_, fun ra => rfl, fun w => rfl, rfl, rfl, rfl, fun v => rfl, ?_,
    fun d ra => rfl, fun d => rfl⟩
  · intro s s' h
    exact RedditScout.with_retry_go_congr s s' RedditScout.MAX_RETRIES 0 []
      (fun i h1 h2 => h i (by omega))
  · intro s s' mr rd h
    exact CommunityScout.request_with_retry_go_congr s s' mr rd mr 0 []
      (fun i h1 h2 => h i (by omega))

theorem c8_retry_backoff_witness :
    RedditScout.with_retry
        (fun i => if i < 3 then RedditScout.RetryOutcome.transientError
                  else RedditScout.RetryOutcome.ok 7) =
      RedditScout.with_retry (fun _ => RedditScout.RetryOutcome.transientError) ∧
    CommunityScout.request_with_retry
        (fun i => if i < 3 then CommunityScout.HNReqOutcome.requestError
                  else CommunityScout.HNReqOutcome.ok 9) 3 4 =
      CommunityScout.request_with_retry
        (fun _ => CommunityScout.HNReqOutcome.requestError) 3 4 :=
  ⟨c8_retry_backoff.1 _ _ (by decide),
   (c8_retry_backoff.2.2.2.2.2.2.2.1) _ _ 3 4 (by decide)⟩

set_option maxRecDepth 10000 in
/-- C9 counterexample: on a 320-character text consisting of one unbroken word
with the match at positions 160..165, `extract_context` returns an
ellipsis-wrapped middle slice that cuts the word on both sides; snapping
outward to the nearest word boundary, as the claim requires, would have
produced the whole text. -/
theorem c9_snap_outward_counterexample :
    RedditScout.extract_context (List.replicate 320 'a') 160 165 150 =
      ['.', '.', '.'] ++ List.replicate 305 'a' ++ ['.', '.', '.'] ∧
    ['.', '.', '.'] ++ List.replicate 305 'a' ++ ['.', '.', '.'] ≠
      List.replicate 320 'a' := by
  constructor
  · rfl
  · decide

/-- C9 (amended): for a match span `ms..me` inside the text, the snippet is
built from a window of at most `context_chars` characters on each side of the
span that always still contains the span; the window snaps inward, not
outward: when truncated at the front and a space precedes the match inside the
window, the window start moves to just after the first such space (dropping
the leading partial word), and when truncated at the end with a space after
the match inside the window, the window end moves back to the last such space
(dropping the trailing partial word) — with no space available the cut stays
mid-word.  The snippet is the stripped window slice, and it carries a leading
(resp. trailing) ellipsis exactly when more than `context_chars` characters
precede (resp. follow) the span. -/
theorem c9_context_snippet_inward (t : List Char) (ms me cc : Nat)
    (h1 : ms ≤ me) (h2 : me ≤ t.length) :
    (ms - cc ≤ (RedditScout.contextBounds t ms me cc).1 ∧
     (RedditScout.contextBounds t ms me cc).1 ≤ ms) ∧
    (me ≤ (RedditScout.contextBounds t ms me cc).2 ∧
     (RedditScout.contextBounds t ms me cc).2 ≤ min t.length (me + cc)) ∧
    (0 < (RedditScout.contextBounds t ms me cc).1 ↔ cc < ms) ∧
    ((RedditScout.contextBounds t ms me cc).2 < t.length ↔ me + cc < t.length) ∧
    RedditScout.extract_context t ms me cc =
      (if 0 < (RedditScout.contextBounds t ms me cc).1 then ['.', '.', '.'] else [])
        ++ PyStr.strip (PyStr.slice t (RedditScout.contextBounds t ms me cc).1
              (RedditScout.contextBounds t ms me cc).2)
        ++ (if (RedditScout.contextBounds t ms me cc).2 < t.length
            then ['.', '.', '.'] else []) ∧
    ((∃ i, ms - cc ≤ i ∧ i < ms ∧ t.get? i = some ' ') → cc < ms →
      t.get? ((RedditScout.contextBounds t ms me cc).1 - 1) = some ' ') ∧
    ((∃ i, me ≤ i ∧ i < me + cc ∧ t.get? i = some ' ') → me + cc < t.length →
      t.get? (RedditScout.contextBounds t ms me cc).2 = some ' ') := by
  have hfst := RedditScout.contextBounds_fst_eq t ms me cc
  have hsnd := RedditScout.contextBounds_snd_eq t ms me cc
  have hfront : (ms - cc ≤ (RedditScout.contextBounds t ms me cc).1 ∧
      (RedditScout.contextBounds t ms me cc).1 ≤ ms) ∧
      (0 < (RedditScout.contextBounds t ms me cc).1 ↔ cc < ms) := by
    rw [hfst]
    split
    · rename_i h0
      split
      · rename_i p heq
        obtain ⟨hp1, -, -⟩ := PyStr.findFrom_some heq
        split
        · rename_i hlt
          have t1 : ms - cc ≤ p + 1 := by omega
          have t2 : p + 1 ≤ ms := by omega
          have t3 : (0 : Nat) < p + 1 := by omega
          have t4 : cc < ms := by omega
          exact ⟨⟨t1, t2⟩, ⟨fun _ => t4, fun _ => t3⟩⟩
        · have t1 : ms - cc ≤ ms := by omega
          have t4 : cc < ms := by omega
          exact ⟨⟨Nat.le_refl _, t1⟩, ⟨fun _ => t4, fun _ => h0⟩⟩
      · have t1 : ms - cc ≤ ms := by omega
        have t4 : cc < ms := by omega
        exact ⟨⟨Nat.le_refl _, t1⟩, ⟨fun _ => t4, fun _ => h0⟩⟩
    · rename_i h0
      have t1 : ms - cc ≤ ms := by omega
      exact ⟨⟨Nat.le_refl _, t1⟩, ⟨fun hh => by omega, fun hh => by omega⟩⟩
  have hend : (me ≤ (RedditScout.contextBounds t ms me cc).2 ∧
      (RedditScout.contextBounds t ms me cc).2 ≤ min t.length (me + cc)) ∧
      ((RedditScout.contextBounds t ms me cc).2 < t.length ↔ me + cc < t.length) := by
    rw [hsnd]
    split
    · rename_i hlen
      split
      · rename_i q heq
        obtain ⟨hq1, hq2, -⟩ := PyStr.rfindRange_some heq
        have t1 : q ≤ min t.length (me + cc) := by omega
        have t2 : q < t.length := by omega
        have t3 : me + cc < t.length := by omega
        exact ⟨⟨hq1, t1⟩, ⟨fun _ => t3, fun _ => t2⟩⟩
      · have t0 : me ≤ min t.length (me + cc) := by omega
        have t3 : me + cc < t.length := by omega
        exact ⟨⟨t0, Nat.le_refl _⟩, ⟨fun _ => t3, fun _ => hlen⟩⟩
    · rename_i hlen
      have t0 : me ≤ min t.length (me + cc) := by omega
      exact ⟨⟨t0, Nat.le_refl _⟩, ⟨fun hh => by omega, fun hh => by omega⟩⟩
  refine ⟨hfront.1, hend.1, hfront.2, hend.2, ?_, ?_, ?_⟩
  · by_cases hA : 0 < (RedditScout.contextBounds t ms me cc).1 <;>
      by_cases hB : (RedditScout.contextBounds t ms me cc).2 < t.length <;>
        simp [RedditScout.extract_context, hA, hB]
  · rintro ⟨i, hi1, hi2, hi3⟩ hcc
    have hs0 : 0 < ms - cc := by omega
    have hiS : (PyStr.findFrom t ' ' (ms - cc)).isSome = true :=
      PyStr.findFrom_isSome hi1 (by omega) hi3
    obtain ⟨p, hp⟩ := Option.isSome_iff_exists.mp hiS
    obtain ⟨hp1, hp2, hp3⟩ := PyStr.findFrom_some hp
    have hpi : p ≤ i := by
      by_contra hgt
      exact hp3 i hi1 (by omega) hi3
    rw [hfst, if_pos hs0, hp]
    dsimp only
    rw [if_pos (by omega : p < ms)]
    simpa using hp2
  · rintro ⟨i, hi1, hi2, hi3⟩ hlen
    have hiS : (PyStr.rfindRange t ' ' me (min t.length (me + cc))).isSome = true :=
      PyStr.rfindRange_isSome hi1 (by omega) hi3
    obtain ⟨q, hq⟩ := Option.isSome_iff_exists.mp hiS
    obtain ⟨hq1, hq2, hq3⟩ := PyStr.rfindRange_some hq
    rw [hsnd, if_pos (by omega), hq]
    dsimp only
    exact hq3

theorem c9_context_snippet_inward_witness :
    (6 ≤ 8 ∧ 8 ≤ ("aa bb cc dd ee".data).length) ∧
    (0 < (RedditScout.contextBounds "aa bb cc dd ee".data 6 8 4).1 ↔ 4 < 6) :=
  ⟨⟨by decide, by decide⟩,
   (c9_context_snippet_inward "aa bb cc dd ee".data 6 8 4
     (by decide) (by decide)).2.2.1⟩

/-- C10: duplicate detection keys only on `(campaign_id, reddit_id)` — a scan
never introduces two Matches with the same key into a table that had none, so
at most one Match ever exists per campaign and item; and when an item already
matched under one keyword is fetched again and matches a different keyword,
no second Match is created and the scan counts it as a duplicate. -/
theorem c10_duplicate_key_uniqueness :
    (∀ (db : List RedditScout.Match) (c : RedditScout.Campaign)
       (env : RedditScout.RedditFetch) (now : Nat),
      RedditScout.KeyUnique db →
        RedditScout.KeyUnique (RedditScout.scan_campaign db c env now).1) ∧
    (let existing : RedditScout.Match :=
      { id := 1, campaign_id := 1, reddit_id := "t3_abc".data,
        reddit_type := RedditScout.RedditType.post, subreddit := "s".data,
        matched_keyword := "alpha".data, title := some "old title".data,
        body_snippet := [], permalink := [], author := "a".data,
        created_utc := 0, status := RedditScout.MatchStatus.pending,
        completed_at := none, discord_message_id := none }
     let camp : RedditScout.Campaign :=
      { id := 1, name := "n".data, keywords := ["beta".data],
        subreddits := ["s".data], last_scanned_at := none,
        discord_channel_id := none }
     let post : RedditScout.RedditPost :=
      { id := "abc".data, subreddit := "s".data, title := "beta tools".data,
        selftext := [], author := "u".data, permalink := "/p".data,
        created_utc := 0, score := 0, num_comments := 0 }
     let env : RedditScout.RedditFetch := ⟨fun _ => [post], fun _ => []⟩
     let out := RedditScout.scan_campaign [existing] camp env 9
     out.2.2.new_matches = 0 ∧ out.2.2.duplicates_skipped = 1 ∧
     out.1 = [existing]) := by
  refine ⟨fun db c env now h => RedditScout.scan_campaign_preserves db c env now h, ?_⟩
  decide

theorem c10_duplicate_key_uniqueness_witness :
    RedditScout.KeyUnique [] ∧
    RedditScout.KeyUnique (RedditScout.scan_campaign []
      { id := 1, name := "n".data, keywords := ["beta".data],
        subreddits := ["s".data], last_scanned_at := none,
        discord_channel_id := none }
      ⟨fun _ => [], fun _ => []⟩ 0).1 :=
  ⟨List.Pairwise.nil,
   c10_duplicate_key_uniqueness.1 []
     { id := 1, name := "n".data, keywords := ["beta".data],
       subreddits := ["s".data], last_scanned_at := none,
       discord_channel_id := none }
     ⟨fun _ => [], fun _ => []⟩ 0 List.Pairwise.nil⟩
